import Mathlib

/-!
Verification of the sandbox registry and metrics federation engine of the
kata-containers management agent (package `magent`).

The registry (`sandboxCache`, file `src/unnamed/part_006`) is a mutex-guarded
Go map from sandbox id to namespace.  Go maps are reference values: returning
`sc.sandboxes` returns the map header, so the caller and the cache share one
underlying object.  To capture this aliasing faithfully we model a small heap:
a `Store` is a list of allocated maps, and the cache and any snapshot hold an
index (`Nat`) into that list.  The mutex itself (pure mutual exclusion) has no
effect on the sequential semantics modelled here; every operation below is the
body of the corresponding Go method between `Lock` and `Unlock`.
-/

namespace Magent

/-- An association list standing in for a Go `map[string]string`.  Operations
below preserve key uniqueness; lookup takes the first match. -/
abbrev AMap := List (String × String)

/-- Lookup in a `map[string]string`: `val, found := m[id]`. -/
def lookupA : AMap → String → Option String
  | [], _ => none
  | (k, v) :: rest, key => if k = key then some v else lookupA rest key

/-- Number of entries of the map carrying a given key. -/
def countKey (m : AMap) (k : String) : Nat :=
  m.countP (fun p => decide (p.1 = k))

/-- The heap of allocated Go maps; a map reference is an index into `maps`. -/
structure Store where
  maps : List AMap
deriving DecidableEq, Repr

/-- The `sandboxCache` struct: it holds a reference to its backing map
(`sandboxes map[string]string`). -/
structure SCache where
  ref : Nat
deriving DecidableEq, Repr

/-- Dereference a map reference in the heap. -/
def readMap (st : Store) (r : Nat) : AMap :=
  st.maps[r]?.getD []

/-- Embeds `sandboxCache.getAllSandboxes`: `return sc.sandboxes` returns the
map reference itself (no copy is made in the source). -/
def getAllSandboxes (sc : SCache) : Nat :=
  sc.ref

/-- Embeds `sandboxCache.putIfNotExists`: if `id` is absent insert `id ↦ v`
into the backing map (in place) and return true, else return false. -/
def putIfNotExists (st : Store) (sc : SCache) (id v : String) : Store × Bool :=
  match lookupA (readMap st sc.ref) id with
  | some _ => (st, false)
  | none => (⟨st.maps.set sc.ref ((id, v) :: readMap st sc.ref)⟩, true)

/-- Embeds `sandboxCache.deleteIfExists`: if `id` is present remove it from
the backing map (in place) and return the prior value and true, else return
`("", false)` leaving the store untouched. -/
def deleteIfExists (st : Store) (sc : SCache) (id : String) : Store × String × Bool :=
  match lookupA (readMap st sc.ref) id with
  | some v =>
    (⟨st.maps.set sc.ref ((readMap st sc.ref).filter (fun p => p.1 ≠ id))⟩, v, true)
  | none => (st, "", false)

/-- Embeds `sandboxCache.init`: `sc.sandboxes = sandboxes` repoints the cache
at a different map object (the caller's), leaving the previously referenced
map object intact in the heap.  We model the incoming map as a fresh cell. -/
def initCache (st : Store) (m : AMap) : Store × SCache :=
  (⟨st.maps ++ [m]⟩, ⟨st.maps.length⟩)

/-- One registry mutation, as performed by the events listener
(`putIfNotExists` on a create event, `deleteIfExists` on a delete event). -/
inductive RegOp
  | put (id v : String)
  | del (id : String)
deriving DecidableEq, Repr

/-- Apply one mutation to the store through the cache. -/
def applyOp (st : Store) (sc : SCache) : RegOp → Store
  | .put id v => (putIfNotExists st sc id v).1
  | .del id => (deleteIfExists st sc id).1

/-- Run a sequence of put/delete mutations. -/
def runOps (st : Store) (sc : SCache) (ops : List RegOp) : Store :=
  ops.foldl (fun s op => applyOp s sc op) st

/-- The registry mapping currently visible through the cache. -/
def curMap (st : Store) (sc : SCache) : AMap :=
  readMap st sc.ref

/-!
Metrics federation model, embedding `src/src/runtime/pkg/magent/metrics.go`.

Network and file-system effects (`getMetricsAddress`, the HTTP GET over the
abstract unix socket, reading the body, and the text-format decode, lines
196-242) are abstracted as a `fetch` environment parameter: `fetch id ns` is
`none` when any of those steps fails (file missing, timeout, decode error) and
`some list` with the decoded family list on success.  Everything the Go code
does to the decoded data is embedded literally.  Likewise the prometheus
encoder is abstracted by a predicate saying which families it accepts; the
Go code only distinguishes success from error per `Encode` call.
-/

/-- The prometheus metric type enum (`dto.MetricType`). -/
inductive MetricType
  | counter
  | gauge
  | summary
  | untyped
  | histogram
deriving DecidableEq, Repr

/-- One sample (`dto.Metric`): its label pairs plus an opaque payload
(gauge/counter/histogram value), which the federation code never inspects. -/
structure Metric where
  label : List (String × String)
  value : Int
deriving DecidableEq, Repr

/-- A metric family (`dto.MetricFamily`).  `name`, `help` and `mtype` are
pointer fields in Go, hence `Option`; `metric` is the sample list. -/
structure MetricFamily where
  name : Option String
  mtype : Option MetricType
  help : Option String
  metric : List Metric
deriving DecidableEq, Repr

/-- Constant `promNamespaceManagementAgent` from metrics.go. -/
def promNamespaceManagementAgent : String := "kata_magent"

/-- The self-observability metrics registered in `init()` of metrics.go, as
plain numeric state.  `runningShimCount` is a gauge (`Set`), the other two
are counters (`Inc`).  The scrape-duration histogram depends on wall-clock
time and is not modelled. -/
structure Prom where
  runningShimCount : Nat
  scrapeCount : Nat
  scrapeFailedCount : Nat
deriving DecidableEq, Repr

/-- Character-list helper for `goHasPre`. -/
def isPre : List Char → List Char → Bool
  | [], _ => true
  | _ :: _, [] => false
  | a :: as, b :: bs => if a = b then isPre as bs else false

/-- Embeds `strings.HasPrefix(s, pre)` from the Go standard library (true
iff `pre` heads `s`), written over the character list so that it is
kernel-executable. -/
def goHasPre (s pre : String) : Bool :=
  isPre pre.data s.data

/-- The per-family processing loop of `getSandboxMetrics` (lines 247-263):
append a `sandbox_id` label carrying this sandbox's id to every sample, and
rename families whose name carries the generic `go_` or `process_` runtime
namespace by prepending `kata_shim_`.  The Go code checks `Name != nil`
before renaming; a nil name is left untouched. -/
def processFamily (sandboxID : String) (mf : MetricFamily) : MetricFamily :=
  { mf with
    metric := mf.metric.map (fun m =>
      { m with label := m.label ++ [(("sandbox_id" : String), sandboxID)] }),
    name :=
      match mf.name with
      | some n =>
        if goHasPre n ("go_") || goHasPre n ("process_") then
          some (("kata_shim_") ++ n)
        else
          some n
      | none => none }

/-- Embeds `MAgent.getSandboxMetrics`: fetch and decode this sandbox's
families (abstracted by `fetch`; `none` on any transport or decode error),
then run the processing loop on each decoded family. -/
def getSandboxMetrics (fetch : String → String → Option (List MetricFamily))
    (sandboxID ns : String) : Option (List MetricFamily) :=
  match fetch sandboxID ns with
  | none => none
  | some list => some (list.map (processFamily sandboxID))

/-- The key the merge loop files a family under: Go dereferences `mf.Name`
(`key := *mf.Name`); decoded families always carry a name. -/
def familyKey (mf : MetricFamily) : String :=
  mf.name.getD ""

/-- Lookup in the `metricsMap` (`oldmf, found := metricsMap[key]`). -/
def lookupF : List (String × MetricFamily) → String → Option MetricFamily
  | [], _ => none
  | (k, v) :: rest, key => if k = key then some v else lookupF rest key

/-- One step of the merge loop of `aggregateSandboxMetrics` (lines 176-181):
if `metricsMap` already holds a family under this key, append the incoming
family's samples to it (in-place pointer mutation in Go); otherwise insert
the incoming family.  `metricsMap` is a Go map; we model it as an
insertion-ordered association list since only its contents are specified. -/
def updateAssoc (acc : List (String × MetricFamily)) (mf : MetricFamily) :
    List (String × MetricFamily) :=
  match lookupF acc (familyKey mf) with
  | some _ =>
    acc.map (fun p =>
      if p.1 = familyKey mf then
        (p.1, { p.2 with metric := p.2.metric ++ mf.metric })
      else p)
  | none => acc ++ [(familyKey mf, mf)]

/-- The full merge of `aggregateSandboxMetrics` (lines 168-183): fold every
family of every successfully fetched sandbox list into `metricsMap`. -/
def buildMetricsMap (lists : List (List MetricFamily)) :
    List (String × MetricFamily) :=
  lists.foldl (fun acc mfs => mfs.foldl updateAssoc acc) []

/-- The encode loop over `metricsMap` (lines 186-190): encode families in
order; the first `Encode` error aborts the loop and is returned.  `encOk`
abstracts the encoder; the result is the successfully written families and
whether the loop completed without error. -/
def encodeAll (encOk : MetricFamily → Bool) :
    List MetricFamily → List MetricFamily × Bool
  | [] => ([], true)
  | mf :: rest =>
    if encOk mf then
      ((mf :: (encodeAll encOk rest).1), (encodeAll encOk rest).2)
    else
      ([], false)

/-- Result of one `aggregateSandboxMetrics` run. -/
structure AggResult where
  prom : Prom
  metricsMap : List (String × MetricFamily)
  written : List MetricFamily
  encodeOk : Bool
deriving Repr

/-- Embeds `MAgent.aggregateSandboxMetrics` (lines 147-193): take the
registry snapshot (passed in as `sandboxes`, the `getAllSandboxes` result),
set the `running_shim_count` gauge to its size, fetch each sandbox's
families (a failed fetch is logged and skipped — `continue`), merge into
`metricsMap`, then encode every merged family, stopping at the first
encoder error (which becomes the function's error return). -/
def aggregateSandboxMetrics (fetch : String → String → Option (List MetricFamily))
    (encOk : MetricFamily → Bool) (sandboxes : List (String × String))
    (prom : Prom) : AggResult :=
  { prom := { prom with runningShimCount := sandboxes.length },
    metricsMap :=
      buildMetricsMap (sandboxes.foldl (fun acc p =>
        match getSandboxMetrics fetch p.1 p.2 with
        | none => acc
        | some l => acc ++ [l]) []),
    written :=
      (encodeAll encOk ((buildMetricsMap (sandboxes.foldl (fun acc p =>
        match getSandboxMetrics fetch p.1 p.2 with
        | none => acc
        | some l => acc ++ [l]) [])).map Prod.snd)).1,
    encodeOk :=
      (encodeAll encOk ((buildMetricsMap (sandboxes.foldl (fun acc p =>
        match getSandboxMetrics fetch p.1 p.2 with
        | none => acc
        | some l => acc ++ [l]) [])).map Prod.snd)).2 }

/-- The renaming applied to the agent's own gathered families in
`ProcessMetricsRequest` (lines 126-131): a non-nil name that does not
already start with `kata_magent` is renamed to `kata_magent_` ++ name. -/
def renameOwnFamily (mf : MetricFamily) : MetricFamily :=
  match mf.name with
  | some n =>
    if goHasPre n promNamespaceManagementAgent then mf
    else { mf with name := some (promNamespaceManagementAgent ++ ("_") ++ n) }
  | none => mf

/-- The observable outcome of one `/metrics` request: HTTP status code,
whether the error body was written, the self-observability counters, the
agent's own families successfully encoded, and the aggregated sandbox
families successfully encoded. -/
structure HttpResult where
  status : Nat
  wroteErrorBody : Bool
  prom : Prom
  ownFamilies : List MetricFamily
  sandboxFamilies : List MetricFamily
deriving Repr

/-- Embeds `MAgent.ProcessMetricsRequest` (lines 85-144): bump the scrape
counter; gather the agent's own registry (abstracted as `gather`, `none` on
`Gather` error) — on failure write status 500 with the error body and
return; otherwise rename and encode the agent's own families (an encode
failure is logged and the loop continues, modelled by `encOkOwn` filtering),
then aggregate the sandbox metrics and bump the scrape-failure counter iff
aggregation returned an error.  The implicit success status is 200. -/
def ProcessMetricsRequest (gather : Option (List MetricFamily))
    (encOkOwn encOkAgg : MetricFamily → Bool)
    (fetch : String → String → Option (List MetricFamily))
    (sandboxes : List (String × String)) (prom : Prom) : HttpResult :=
  match gather with
  | none =>
    { status := 500, wroteErrorBody := true,
      prom := { prom with scrapeCount := prom.scrapeCount + 1 },
      ownFamilies := [], sandboxFamilies := [] }
  | some mfs =>
    { status := 200, wroteErrorBody := false,
      prom :=
        (if (aggregateSandboxMetrics fetch encOkAgg sandboxes
              { prom with scrapeCount := prom.scrapeCount + 1 }).encodeOk then
          (aggregateSandboxMetrics fetch encOkAgg sandboxes
            { prom with scrapeCount := prom.scrapeCount + 1 }).prom
        else
          { (aggregateSandboxMetrics fetch encOkAgg sandboxes
              { prom with scrapeCount := prom.scrapeCount + 1 }).prom with
            scrapeFailedCount :=
              (aggregateSandboxMetrics fetch encOkAgg sandboxes
                { prom with scrapeCount := prom.scrapeCount + 1 }).prom.scrapeFailedCount
                + 1 }),
      ownFamilies := (mfs.map renameOwnFamily).filter encOkOwn,
      sandboxFamilies :=
        (aggregateSandboxMetrics fetch encOkAgg sandboxes
          { prom with scrapeCount := prom.scrapeCount + 1 }).written }

theorem lookupA_none_countKey (m : AMap) (k : String)
    (h : lookupA m k = none) : countKey m k = 0 := by
  induction m with
  | nil => rfl
  | cons p rest ih =>
    cases p with
    | mk a b =>
      simp only [lookupA] at h
      by_cases hak : a = k
      · simp [hak] at h
      · simp only [if_neg hak] at h
        have hr := ih h
        simp [countKey, List.countP_cons, hak] at hr ⊢
        exact hr

theorem readMap_set_self (st : Store) (r : Nat) (m : AMap) (h : r < st.maps.length) :
    readMap ⟨st.maps.set r m⟩ r = m := by
  simp only [readMap]
  rw [List.getElem?_set_self h]
  rfl

theorem lookupA_filter_self (m : AMap) (id : String) :
    lookupA (m.filter (fun p => p.1 ≠ id)) id = none := by
  induction m with
  | nil => rfl
  | cons p rest ih =>
    simp only [ne_eq, decide_not] at ih ⊢
    by_cases hp : p.1 = id
    · simpa [List.filter_cons, hp] using ih
    · simp [List.filter_cons, hp, lookupA, ih]

/-- C4: starting from a registry state in which `id` is absent (the situation
in which the claimed first-call-returns-true scenario arises), calling
`putIfNotExists id ns` twice in succession returns true then false and leaves
the registry with exactly one entry for `id`, mapped to the namespace of the
first call. -/
theorem putIfNotExists_twice (st : Store) (sc : SCache) (id ns : String)
    (h : sc.ref < st.maps.length)
    (habs : lookupA (curMap st sc) id = none) :
    (putIfNotExists st sc id ns).2 = true ∧
    (putIfNotExists (putIfNotExists st sc id ns).1 sc id ns).2 = false ∧
    countKey (curMap (putIfNotExists (putIfNotExists st sc id ns).1 sc id ns).1 sc) id = 1 ∧
    lookupA (curMap (putIfNotExists (putIfNotExists st sc id ns).1 sc id ns).1 sc) id
      = some ns := by
  simp only [curMap] at habs ⊢
  have h1 : putIfNotExists st sc id ns
      = (⟨st.maps.set sc.ref ((id, ns) :: readMap st sc.ref)⟩, true) := by
    simp only [putIfNotExists, habs]
  have hm : readMap (⟨st.maps.set sc.ref ((id, ns) :: readMap st sc.ref)⟩ : Store) sc.ref
      = (id, ns) :: readMap st sc.ref := readMap_set_self st sc.ref _ h
  have hlook : lookupA (readMap (putIfNotExists st sc id ns).1 sc.ref) id = some ns := by
    rw [h1]
    simp only [hm]
    simp [lookupA]
  have h2 : putIfNotExists (putIfNotExists st sc id ns).1 sc id ns
      = ((putIfNotExists st sc id ns).1, false) := by
    generalize hst1 : (putIfNotExists st sc id ns).1 = st1 at hlook ⊢
    simp only [putIfNotExists]
    rw [hlook]
  have h0 := lookupA_none_countKey _ _ habs
  refine ⟨by rw [h1], by rw [h2], ?_, ?_⟩
  · rw [h2]
    simp only [h1, hm]
    simp only [countKey] at h0 ⊢
    simp [List.countP_cons, h0]
  · rw [h2]
    simp only [h1, hm]
    simp [lookupA]

/-- Witness for the C4 theorem at the store holding one empty map. -/
theorem putIfNotExists_twice_witness :
    (⟨0⟩ : SCache).ref < (⟨[[]]⟩ : Store).maps.length ∧
    lookupA (curMap ⟨[[]]⟩ ⟨0⟩) ("a") = none ∧
    ((putIfNotExists ⟨[[]]⟩ ⟨0⟩ ("a") ("ns")).2 = true ∧
      (putIfNotExists (putIfNotExists ⟨[[]]⟩ ⟨0⟩ ("a") ("ns")).1 ⟨0⟩ ("a") ("ns")).2 = false ∧
      countKey (curMap
        (putIfNotExists (putIfNotExists ⟨[[]]⟩ ⟨0⟩ ("a") ("ns")).1 ⟨0⟩ ("a") ("ns")).1 ⟨0⟩)
        ("a") = 1 ∧
      lookupA (curMap
        (putIfNotExists (putIfNotExists ⟨[[]]⟩ ⟨0⟩ ("a") ("ns")).1 ⟨0⟩ ("a") ("ns")).1 ⟨0⟩)
        ("a") = some ("ns")) :=
  ⟨by decide, by decide,
    putIfNotExists_twice ⟨[[]]⟩ ⟨0⟩ ("a") ("ns") (by decide) (by decide)⟩

/-- C5: deleting an id that is absent from the registry returns the
not-found result (empty namespace and false) and leaves the entire store —
hence the registry mapping — unchanged. -/
theorem deleteIfExists_absent (st : Store) (sc : SCache) (id : String)
    (habs : lookupA (curMap st sc) id = none) :
    deleteIfExists st sc id = (st, "", false) := by
  simp only [curMap] at habs
  simp only [deleteIfExists]
  rw [habs]

/-- Witness for the C5 theorem at a concrete one-entry registry. -/
theorem deleteIfExists_absent_witness :
    lookupA (curMap ⟨[[("b", "x")]]⟩ ⟨0⟩) ("a") = none ∧
    deleteIfExists ⟨[[("b", "x")]]⟩ ⟨0⟩ ("a") = (⟨[[("b", "x")]]⟩, "", false) :=
  ⟨by decide, deleteIfExists_absent ⟨[[("b", "x")]]⟩ ⟨0⟩ ("a") (by decide)⟩

/-- C6: from any starting store, after any sequence of putIfNotExists and
deleteIfExists operations, a subsequent init (replaceAll) with mapping `m`
leaves the registry visible through the cache exactly equal to `m`. -/
theorem initCache_replaceAll (st0 : Store) (sc : SCache) (ops : List RegOp) (m : AMap) :
    curMap (initCache (runOps st0 sc ops) m).1 (initCache (runOps st0 sc ops) m).2 = m := by
  simp [curMap, initCache, readMap, List.getElem?_concat_length]

/-- C1 counterexample: on the store holding one empty backing map, take the
snapshot reference with getAllSandboxes, then insert `a ↦ ns` with
putIfNotExists: the mapping read through the snapshot afterwards differs
from the mapping read through it at snapshot time, so the mutation is
visible in the mapping the caller received — getAllSandboxes returned the
live map, not a copy. -/
theorem getAllSandboxes_not_copy_cex :
    readMap (putIfNotExists ⟨[[]]⟩ ⟨0⟩ ("a") ("ns")).1 (getAllSandboxes ⟨0⟩) ≠
      readMap (⟨[[]]⟩ : Store) (getAllSandboxes ⟨0⟩) := by
  decide

/-- C1 amended: getAllSandboxes returns the live backing-map reference
(`return sc.sandboxes`), not a copy: a later putIfNotExists insertion and a
later deleteIfExists removal are both visible through the returned
reference; only init, which repoints the cache at a different map object,
leaves the view through an earlier snapshot unchanged. -/
theorem getAllSandboxes_alias (st : Store) (sc : SCache) (ida v idb w : String) (m : AMap)
    (h : sc.ref < st.maps.length)
    (ha : lookupA (curMap st sc) ida = none)
    (hb : lookupA (curMap st sc) idb = some w) :
    lookupA (readMap (putIfNotExists st sc ida v).1 (getAllSandboxes sc)) ida = some v ∧
    lookupA (readMap (deleteIfExists st sc idb).1 (getAllSandboxes sc)) idb = none ∧
    readMap (initCache st m).1 (getAllSandboxes sc) = readMap st (getAllSandboxes sc) := by
  simp only [curMap] at ha hb
  refine ⟨?_, ?_, ?_⟩
  · simp only [putIfNotExists, ha, getAllSandboxes]
    rw [readMap_set_self st sc.ref _ h]
    simp [lookupA]
  · simp only [deleteIfExists, hb, getAllSandboxes]
    rw [readMap_set_self st sc.ref _ h]
    exact lookupA_filter_self _ _
  · simp only [initCache, getAllSandboxes, readMap]
    rw [List.getElem?_append_left h]

/-- Witness for the C1 amended theorem at a concrete one-entry registry. -/
theorem getAllSandboxes_alias_witness :
    (⟨0⟩ : SCache).ref < (⟨[[("b", "x")]]⟩ : Store).maps.length ∧
    lookupA (curMap ⟨[[("b", "x")]]⟩ ⟨0⟩) ("a") = none ∧
    lookupA (curMap ⟨[[("b", "x")]]⟩ ⟨0⟩) ("b") = some ("x") ∧
    (lookupA (readMap (putIfNotExists ⟨[[("b", "x")]]⟩ ⟨0⟩ ("a") ("ns")).1
        (getAllSandboxes ⟨0⟩)) ("a") = some ("ns") ∧
      lookupA (readMap (deleteIfExists ⟨[[("b", "x")]]⟩ ⟨0⟩ ("b")).1
        (getAllSandboxes ⟨0⟩)) ("b") = none ∧
      readMap (initCache ⟨[[("b", "x")]]⟩ [("c", "d")]).1 (getAllSandboxes ⟨0⟩) =
        readMap (⟨[[("b", "x")]]⟩ : Store) (getAllSandboxes ⟨0⟩)) :=
  ⟨by decide, by decide, by decide,
    getAllSandboxes_alias ⟨[[("b", "x")]]⟩ ⟨0⟩ ("a") ("ns") ("b") ("x") ([("c", "d")])
      (by decide) (by decide) (by decide)⟩

theorem encodeAll_all_ok (l : List MetricFamily) :
    encodeAll (fun _ => true) l = (l, true) := by
  induction l with
  | nil => rfl
  | cons mf rest ih => simp [encodeAll, ih]

theorem shim_name_ne_self (n : String) : ("kata_shim_") ++ n ≠ n := by
  intro hEq
  have hl := congrArg String.length hEq
  rw [String.length_append] at hl
  have h10 : ("kata_shim_" : String).length = 10 := by decide
  omega

theorem shim_name_ne_agent_name (n : String) :
    ("kata_shim_") ++ n ≠ promNamespaceManagementAgent ++ ("_") ++ n := by
  intro hEq
  have hl := congrArg String.length hEq
  rw [String.length_append, String.length_append, String.length_append] at hl
  have h10 : ("kata_shim_" : String).length = 10 := by decide
  have h11 : promNamespaceManagementAgent.length = 11 := by decide
  have h1 : ("_" : String).length = 1 := by decide
  omega

/-- C8: aggregateSandboxMetrics sets the running_shim_count gauge to exactly
the number of sandboxes in the snapshot handed to the pass, before any fetch
is attempted — so sandboxes whose fetch subsequently fails are counted. -/
theorem runningShimCount_fleet_size
    (fetch : String → String → Option (List MetricFamily))
    (encOk : MetricFamily → Bool) (sandboxes : List (String × String)) (prom : Prom) :
    (aggregateSandboxMetrics fetch encOk sandboxes prom).prom.runningShimCount
      = sandboxes.length :=
  rfl

/-- C9: the /metrics handler answers 500 (writing the error body) exactly
when gathering the agent's own registry fails; for every other combination
of sandbox fetch results and encoder outcomes the status is 200. -/
theorem processMetrics_status_500_iff
    (gather : Option (List MetricFamily)) (encOkOwn encOkAgg : MetricFamily → Bool)
    (fetch : String → String → Option (List MetricFamily))
    (sandboxes : List (String × String)) (prom : Prom) :
    ((ProcessMetricsRequest gather encOkOwn encOkAgg fetch sandboxes prom).status = 500 ∧
        (ProcessMetricsRequest gather encOkOwn encOkAgg fetch sandboxes prom).wroteErrorBody
          = true
      ↔ gather = none) ∧
    ((ProcessMetricsRequest gather encOkOwn encOkAgg fetch sandboxes prom).status = 200
      ↔ gather ≠ none) := by
  cases gather <;> simp [ProcessMetricsRequest]

/-- C10: when two families with the same name are merged, the aggregated
entry keeps the name, declared type and help text of the first family
processed under that name; the second family contributes only its samples,
even when its declared type differs. -/
theorem merge_keeps_first_metadata (n : String) (t1 t2 : Option MetricType)
    (hl1 hl2 : Option String) (ms1 ms2 : List Metric) :
    buildMetricsMap [[⟨some n, t1, hl1, ms1⟩], [⟨some n, t2, hl2, ms2⟩]]
      = [(n, ⟨some n, t1, hl1, ms1 ++ ms2⟩)] := by
  simp [buildMetricsMap, updateAssoc, familyKey, lookupF]

/-- C7: a sandbox family whose name carries the generic go_ or process_
namespace is renamed by the getSandboxMetrics processing loop to
kata_shim_ ++ name, and that name is distinct from the name under which
ProcessMetricsRequest emits the agent's own family of the same original
name (the kata_magent_-renamed form, or the name itself when it already
starts with kata_magent). -/
theorem shim_rename_no_collision (sandboxID n : String) (t t' : Option MetricType)
    (hlp hlp' : Option String) (ms ms' : List Metric)
    (hgen : (goHasPre n ("go_") || goHasPre n ("process_")) = true) :
    (processFamily sandboxID ⟨some n, t, hlp, ms⟩).name = some (("kata_shim_") ++ n) ∧
    (processFamily sandboxID ⟨some n, t, hlp, ms⟩).name
      ≠ (renameOwnFamily ⟨some n, t', hlp', ms'⟩).name := by
  have hname : (processFamily sandboxID ⟨some n, t, hlp, ms⟩).name
      = some (("kata_shim_") ++ n) := by
    simp [processFamily, hgen]
  refine ⟨hname, ?_⟩
  rw [hname]
  simp only [renameOwnFamily]
  by_cases hk : goHasPre n promNamespaceManagementAgent = true
  · simp only [if_pos hk]
    intro hEq
    exact shim_name_ne_self n (Option.some.inj hEq)
  · simp only [if_neg hk]
    intro hEq
    exact shim_name_ne_agent_name n (Option.some.inj hEq)

/-- Witness for the C7 theorem at the family name of the spec's example. -/
theorem shim_rename_no_collision_witness :
    ((goHasPre ("process_cpu_seconds_total") ("go_") ||
        goHasPre ("process_cpu_seconds_total") ("process_")) = true) ∧
    ((processFamily ("s1") ⟨some ("process_cpu_seconds_total"), none, none, []⟩).name
        = some (("kata_shim_") ++ ("process_cpu_seconds_total")) ∧
      (processFamily ("s1") ⟨some ("process_cpu_seconds_total"), none, none, []⟩).name
        ≠ (renameOwnFamily ⟨some ("process_cpu_seconds_total"), none, none, []⟩).name) :=
  ⟨by decide,
    shim_rename_no_collision ("s1") ("process_cpu_seconds_total") none none none none [] []
      (by decide)⟩

/-- C3: two distinct sandboxes that each expose one family with the same
name X (not carrying the generic go_/process_ namespace, so the name is kept
as X) holding one sample each federate into a metricsMap with exactly one
entry for X whose family holds exactly two samples, the first labelled
sandbox_id = s1 and the second sandbox_id = s2. -/
theorem federate_two_sandboxes_one_family (s1 s2 ns1 ns2 X : String)
    (t1 t2 : Option MetricType) (hl1 hl2 : Option String) (m1 m2 : Metric)
    (encOk : MetricFamily → Bool) (prom : Prom)
    (hne : s1 ≠ s2)
    (hg : goHasPre X ("go_") = false)
    (hp : goHasPre X ("process_") = false) :
    (aggregateSandboxMetrics
        (fun id _ => if id = s1 then some [⟨some X, t1, hl1, [m1]⟩]
          else if id = s2 then some [⟨some X, t2, hl2, [m2]⟩] else none)
        encOk [(s1, ns1), (s2, ns2)] prom).metricsMap
      = [(X, ⟨some X, t1, hl1,
          [{ m1 with label := m1.label ++ [(("sandbox_id" : String), s1)] },
           { m2 with label := m2.label ++ [(("sandbox_id" : String), s2)] }]⟩)] := by
  have hne' : (s2 = s1) = False := by
    simp [eq_comm, hne]
  simp [aggregateSandboxMetrics, getSandboxMetrics, buildMetricsMap, updateAssoc,
    familyKey, lookupF, processFamily, hne', hg, hp]

/-- Witness for the C3 theorem at two concrete sandboxes exposing family
foo with one sample each. -/
theorem federate_two_sandboxes_one_family_witness :
    (("s1" : String) ≠ ("s2" : String)) ∧
    goHasPre ("foo") ("go_") = false ∧
    goHasPre ("foo") ("process_") = false ∧
    (aggregateSandboxMetrics
        (fun id _ => if id = ("s1" : String) then
            some [⟨some ("foo"), some MetricType.counter, some ("h1"), [⟨[("k", "v")], 1⟩]⟩]
          else if id = ("s2" : String) then
            some [⟨some ("foo"), some MetricType.gauge, some ("h2"), [⟨[], 2⟩]⟩] else none)
        (fun _ => true) [(("s1"), ("nsa")), (("s2"), ("nsb"))] ⟨0, 0, 0⟩).metricsMap
      = [(("foo"), ⟨some ("foo"), some MetricType.counter, some ("h1"),
          [⟨[("k", "v"), ("sandbox_id", "s1")], 1⟩,
           ⟨[("sandbox_id", "s2")], 2⟩]⟩)] :=
  ⟨by decide, by decide, by decide,
    federate_two_sandboxes_one_family ("s1") ("s2") ("nsa") ("nsb") ("foo")
      (some MetricType.counter) (some MetricType.gauge) (some ("h1")) (some ("h2"))
      ⟨[("k", "v")], 1⟩ ⟨[], 2⟩ (fun _ => true) ⟨0, 0, 0⟩
      (by decide) (by decide) (by decide)⟩

/-- C2 counterexample: three sandboxes of which exactly one (s2) fails to
fetch while s1 and s3 succeed and every encode succeeds: the pass merges and
writes the two successful sandboxes' families, but the scrape-failure
counter after the whole request is still 0 — not incremented by one as the
claim states (fetch failures are only logged; the counter is touched only
when writing out the aggregated result fails). -/
theorem scrape_failed_not_incremented_cex :
    (ProcessMetricsRequest (some []) (fun _ => true) (fun _ => true)
        (fun id _ => if id = ("s1" : String) then
            some [⟨some ("foo"), none, none, [⟨[], 1⟩]⟩]
          else if id = ("s3" : String) then
            some [⟨some ("bar"), none, none, [⟨[], 2⟩]⟩] else none)
        [(("s1"), ("nsa")), (("s2"), ("nsb")), (("s3"), ("nsc"))]
        ⟨0, 0, 0⟩).prom.scrapeFailedCount = 0 ∧
    (ProcessMetricsRequest (some []) (fun _ => true) (fun _ => true)
        (fun id _ => if id = ("s1" : String) then
            some [⟨some ("foo"), none, none, [⟨[], 1⟩]⟩]
          else if id = ("s3" : String) then
            some [⟨some ("bar"), none, none, [⟨[], 2⟩]⟩] else none)
        [(("s1"), ("nsa")), (("s2"), ("nsb")), (("s3"), ("nsc"))]
        ⟨0, 0, 0⟩).sandboxFamilies.length = 2 := by
  decide

/-- C2 amended: for three sandboxes of which exactly one fetch fails (and
the others succeed), a request whose own-registry gather succeeds and whose
encoder accepts every family still writes the merged families of the two
successful sandboxes, and leaves the scrape-failure counter unchanged: in
this code that counter is incremented only when writing out the aggregated
result fails, never by a per-sandbox fetch failure. -/
theorem federation_partial_failure (s1 s2 s3 ns1 ns2 ns3 : String)
    (fetch : String → String → Option (List MetricFamily))
    (l1 l3 gmfs : List MetricFamily)
    (encOkOwn : MetricFamily → Bool) (prom : Prom)
    (hf1 : fetch s1 ns1 = some l1) (hf2 : fetch s2 ns2 = none)
    (hf3 : fetch s3 ns3 = some l3) :
    (ProcessMetricsRequest (some gmfs) encOkOwn (fun _ => true) fetch
        [(s1, ns1), (s2, ns2), (s3, ns3)] prom).sandboxFamilies
      = (buildMetricsMap
          [l1.map (processFamily s1), l3.map (processFamily s3)]).map Prod.snd ∧
    (ProcessMetricsRequest (some gmfs) encOkOwn (fun _ => true) fetch
        [(s1, ns1), (s2, ns2), (s3, ns3)] prom).prom.scrapeFailedCount
      = prom.scrapeFailedCount := by
  simp [ProcessMetricsRequest, aggregateSandboxMetrics, getSandboxMetrics,
    hf1, hf2, hf3, encodeAll_all_ok]

/-- Witness for the C2 amended theorem at a concrete three-sandbox snapshot
where only s2 fails. -/
theorem federation_partial_failure_witness :
    ((fun id (_ : String) => if id = ("s1" : String) then
          some [(⟨some ("foo"), none, none, [⟨[], 1⟩]⟩ : MetricFamily)]
        else if id = ("s3" : String) then
          some [(⟨some ("bar"), none, none, [⟨[], 2⟩]⟩ : MetricFamily)] else none)
        ("s1") ("nsa") = some [⟨some ("foo"), none, none, [⟨[], 1⟩]⟩]) ∧
    ((fun id (_ : String) => if id = ("s1" : String) then
          some [(⟨some ("foo"), none, none, [⟨[], 1⟩]⟩ : MetricFamily)]
        else if id = ("s3" : String) then
          some [(⟨some ("bar"), none, none, [⟨[], 2⟩]⟩ : MetricFamily)] else none)
        ("s2") ("nsb") = none) ∧
    ((fun id (_ : String) => if id = ("s1" : String) then
          some [(⟨some ("foo"), none, none, [⟨[], 1⟩]⟩ : MetricFamily)]
        else if id = ("s3" : String) then
          some [(⟨some ("bar"), none, none, [⟨[], 2⟩]⟩ : MetricFamily)] else none)
        ("s3") ("nsc") = some [⟨some ("bar"), none, none, [⟨[], 2⟩]⟩]) ∧
    ((ProcessMetricsRequest (some []) (fun _ => true) (fun _ => true)
        (fun id _ => if id = ("s1" : String) then
            some [⟨some ("foo"), none, none, [⟨[], 1⟩]⟩]
          else if id = ("s3" : String) then
            some [⟨some ("bar"), none, none, [⟨[], 2⟩]⟩] else none)
        [(("s1"), ("nsa")), (("s2"), ("nsb")), (("s3"), ("nsc"))]
        ⟨0, 0, 0⟩).sandboxFamilies
      = (buildMetricsMap
          [[⟨some ("foo"), none, none, [⟨[], 1⟩]⟩].map (processFamily ("s1")),
           [⟨some ("bar"), none, none, [⟨[], 2⟩]⟩].map (processFamily ("s3"))]).map
          Prod.snd ∧
      (ProcessMetricsRequest (some []) (fun _ => true) (fun _ => true)
        (fun id _ => if id = ("s1" : String) then
            some [⟨some ("foo"), none, none, [⟨[], 1⟩]⟩]
          else if id = ("s3" : String) then
            some [⟨some ("bar"), none, none, [⟨[], 2⟩]⟩] else none)
        [(("s1"), ("nsa")), (("s2"), ("nsb")), (("s3"), ("nsc"))]
        ⟨0, 0, 0⟩).prom.scrapeFailedCount = (⟨0, 0, 0⟩ : Prom).scrapeFailedCount) :=
  ⟨by decide, by decide, by decide,
    federation_partial_failure ("s1") ("s2") ("s3") ("nsa") ("nsb") ("nsc")
      (fun id _ => if id = ("s1" : String) then
          some [⟨some ("foo"), none, none, [⟨[], 1⟩]⟩]
        else if id = ("s3" : String) then
          some [⟨some ("bar"), none, none, [⟨[], 2⟩]⟩] else none)
      [⟨some ("foo"), none, none, [⟨[], 1⟩]⟩]
      [⟨some ("bar"), none, none, [⟨[], 2⟩]⟩]
      [] (fun _ => true) ⟨0, 0, 0⟩ (by decide) (by decide) (by decide)⟩

end Magent
